import Mathlib

/-
Verification of the Neonmachines core extension
(src/extensions/ext_neonmachines/main.py).

The program is a single-shot dispatcher: it reads one JSON object from
standard input, routes on the "tool" field to a file analyzer or a code
generator, and writes exactly one JSON object to standard output.  The
development below is a shallow embedding of that program: each Python
function becomes a total Lean function, the file system becomes an explicit
map from paths to file entries, and the stdout/exit-code behaviour of
`main` is made explicit in its return type.
-/

namespace Neonmachines

/-- The newline character, written via its code point. -/
def NL : Char := Char.ofNat 10

/-- Models Python `small.startswith(...)`-style prefix test on character
lists: `charsStartWith hay needle` is true iff `needle` is an initial
segment of `hay`. -/
def charsStartWith : List Char → List Char → Bool
  | _, [] => true
  | [], _ :: _ => false
  | c :: cs, d :: ds => c == d && charsStartWith cs ds

/-- Models Python substring containment (`needle in hay`) on character
lists: true iff `needle` occurs contiguously inside `hay`. -/
def charsContain (needle : List Char) : List Char → Bool
  | [] => charsStartWith [] needle
  | c :: cs => charsStartWith (c :: cs) needle || charsContain needle cs

/-- Models the Python expression `needle in hay` on strings. -/
def pyIn (needle hay : String) : Bool :=
  charsContain needle.toList hay.toList

/-- Models Python `s.lower()` (the program only compares ASCII keywords,
for which lowercasing character by character agrees with Python). -/
def pyLower (s : String) : String := String.mk (s.toList.map Char.toLower)

/-- Models Python `s.capitalize()`: first character uppercased, all
remaining characters lowercased. -/
def pyCapitalize (s : String) : String :=
  match s.toList with
  | [] => ""
  | c :: cs => String.mk (c.toUpper :: cs.map Char.toLower)

/-- Models Python `s.split(sep)` for a one-character separator: splitting
an empty string gives one empty field, and every occurrence of `sep`
starts a new field. -/
def pySplit (sep : Char) : List Char → List (List Char)
  | [] => [[]]
  | c :: cs =>
    if c == sep then [] :: pySplit sep cs
    else
      match pySplit sep cs with
      | [] => [[c]]
      | g :: gs => (c :: g) :: gs

/-- The input record read from standard input.  The program accesses six
keys, all with `data.get(key, default)`; each is modelled as an optional
string (`none` = key absent). -/
structure Request where
  tool : Option String := none
  file_path : Option String := none
  analysis_type : Option String := none
  specification : Option String := none
  language : Option String := none
  framework : Option String := none
deriving DecidableEq

/-- One path's state on the file system: absent (`os.path.exists` is
false), readable with the given UTF-8 content, or present but failing to
read/decode with the given exception message. -/
inductive FileEntry where
  | absent
  | readable (content : String)
  | unreadable (msg : String)
deriving DecidableEq

/-- The file system, as the program observes it: one entry per path. -/
abbrev FS := String → FileEntry

/-- The JSON object the program writes to standard output.  The source
constructs exactly these three shapes: `{"result": ...}`,
`{"code": ..., "explanation": ...}` and `{"error": ...}`. -/
inductive Response where
  | result (s : String)
  | code (code explanation : String)
  | error (msg : String)
deriving DecidableEq

/-- The `result` string of the summary branch of `process_file_analyzer`:
`f"Summary of {file_path}: File contains {len(lines)} lines and
{len(content)} characters."` where `lines = content.split(chr(10))`. -/
def summaryMessage (file_path content : String) : String :=
  "Summary of " ++ file_path ++ ": File contains " ++
    toString (pySplit NL content.toList).length ++ " lines and " ++
    toString content.length ++ " characters."

/-- The `result` string of the security branch of
`process_file_analyzer`. -/
def securityMessage (file_path content : String) : String :=
  "Security analysis of " ++ file_path ++
    ": No critical security issues detected. File contains " ++
    toString content.length ++ " characters."

/-- The `result` string of the performance branch of
`process_file_analyzer`. -/
def performanceMessage (file_path content : String) : String :=
  "Performance analysis of " ++ file_path ++ ": File size is " ++
    toString content.length ++
    " characters. No performance bottlenecks detected."

/-- Embedding of `process_file_analyzer(data)`.  The file system is an
explicit argument; the Python `try` around the read is the `unreadable`
branch of the file entry. -/
def process_file_analyzer (fs : FS) (data : Request) : Response :=
  let file_path := data.file_path.getD ""
  let analysis_type := data.analysis_type.getD "summary"
  if file_path = "" then
    .error "File path is required"
  else
    match fs file_path with
    | .absent => .error ("File not found: " ++ file_path)
    | .unreadable msg => .error ("Failed to analyze file: " ++ msg)
    | .readable content =>
      if analysis_type = "security" then
        .result (securityMessage file_path content)
      else if analysis_type = "performance" then
        .result (performanceMessage file_path content)
      else
        .result (summaryMessage file_path content)

/-- The fixed web-API code template (the Python triple-quoted literal,
with the source's `\x7b`/`\x7d` braces and quotes reproduced). -/
def webApiTemplate : String :=
  "# Web API Implementation\nfrom flask import Flask, jsonify, request\n\napp = Flask(__name__)\n\n@app.route(\x27/api/data\x27, methods=[\x27GET\x27])\ndef get_data():\n    \"\"\"Get sample data\"\"\"\n    return jsonify(\x7b\"message\": \"Hello from Flask API\"\x7d)\n\n@app.route(\x27/api/data\x27, methods=[\x27POST\x27])\ndef post_data():\n    \"\"\"Post data to API\"\"\"\n    data = request.get_json()\n    return jsonify(\x7b\"received\": data, \"status\": \"success\"\x7d)\n\nif __name__ == \x27__main__\x27:\n    app.run(debug=True)"

/-- The fixed web-API explanation string. -/
def webApiExplanation : String :=
  "Generated a Flask web API with GET and POST endpoints"

/-- The fixed data-analysis code template. -/
def dataAnalysisTemplate : String :=
  "# Data Analysis Script\nimport pandas as pd\nimport matplotlib.pyplot as plt\n\ndef analyze_data(file_path):\n    \"\"\"Analyze data from a CSV file\"\"\"\n    try:\n        df = pd.read_csv(file_path)\n        print(f\"Data shape: \x7bdf.shape\x7d\")\n        print(f\"Columns: \x7blist(df.columns)\x7d\")\n        print(\"\\nFirst 5 rows:\")\n        print(df.head())\n        return df\n    except Exception as e:\n        print(f\"Error reading data: \x7be\x7d\")\n        return None\n\ndef visualize_data(df, column_name):\n    \"\"\"Create a simple visualization\"\"\"\n    if column_name in df.columns:\n        plt.figure(figsize=(10, 6))\n        df[column_name].hist()\n        plt.title(f\x27Distribution of \x7bcolumn_name\x7d\x27)\n        plt.xlabel(column_name)\n        plt.ylabel(\x27Frequency\x27)\n        plt.show()\n    else:\n        print(f\"Column \x7bcolumn_name\x7d not found\")\n\n# Example usage\n# df = analyze_data(\x27data.csv\x27)\n# visualize_data(df, \x27value\x27)"

/-- The fixed data-analysis explanation string. -/
def dataAnalysisExplanation : String :=
  "Generated a data analysis script using pandas and matplotlib"

/-- The fixed generic Python script template. -/
def genericTemplate : String :=
  "# Generic Python Script\ndef main():\n    \"\"\"Main function\"\"\"\n    print(\"Hello from Neonmachines!\")\n    # Your code here\n    pass\n\nif __name__ == \"__main__\":\n    main()"

/-- The fixed generic-script explanation string. -/
def genericExplanation : String :=
  "Generated a basic Python script template"

/-- The non-Python placeholder code string:
`f"# {language.capitalize()} code placeholder\\n# Specification:
{specification}"` (the `\\n` in the source is a literal backslash-n). -/
def placeholderCode (language specification : String) : String :=
  "# " ++ pyCapitalize language ++ " code placeholder\\n# Specification: " ++
    specification

/-- The non-Python placeholder explanation:
`f"Generated placeholder code for {language}"`. -/
def placeholderExplanation (language : String) : String :=
  "Generated placeholder code for " ++ language

/-- Embedding of `process_code_generator(data)`.  The `framework` key is
read (as in the source) but never used. -/
def process_code_generator (data : Request) : Response :=
  let specification := data.specification.getD ""
  let language := data.language.getD "python"
  let _framework := data.framework.getD ""
  if specification = "" then
    .error "Specification is required"
  else if pyLower language = "python" then
    if pyIn "web" (pyLower specification) || pyIn "api" (pyLower specification) then
      .code webApiTemplate webApiExplanation
    else if pyIn "data" (pyLower specification) || pyIn "analysis" (pyLower specification) then
      .code dataAnalysisTemplate dataAnalysisExplanation
    else
      .code genericTemplate genericExplanation
  else
    .code (placeholderCode language specification)
      (placeholderExplanation language)

/-- Embedding of `process_input(data)`: dispatch on
`data.get("tool", "")`. -/
def process_input (fs : FS) (data : Request) : Response :=
  let tool_name := data.tool.getD ""
  if tool_name = "file_analyzer" then
    process_file_analyzer fs data
  else if tool_name = "code_generator" then
    process_code_generator data
  else
    .error ("Unknown tool: " ++ tool_name)

/-- The content of standard input, as `json.load(sys.stdin)` sees it:
either not a parsable JSON object (the raised exception carries message
`msg`) or a parsed request record. -/
inductive Stdin where
  | invalid (msg : String)
  | valid (data : Request)

/-- Embedding of `json.load(sys.stdin)`: the parse either fails with an
exception message or yields the request record. -/
def readStdin : Stdin → Except String Request
  | .invalid msg => .error msg
  | .valid data => .ok data

/-- Embedding of `main()`.  The first component is the sequence of JSON
values written to standard output (the source calls `json.dump` exactly
once on every path: once in the `try` body, once in the `except` handler).
The second component is the process exit code: the source never calls
`sys.exit` and `main` catches every exception, so the interpreter always
exits with code 0. -/
def mainRun (fs : FS) (input : Stdin) : List Response × Nat :=
  match readStdin input with
  | .ok data => ([process_input fs data], 0)
  | .error e => ([Response.error e], 0)

/-- A file system with no files, for concrete instantiations. -/
def emptyFS : FS := fun _ => .absent

/-- A file system holding one two-line file, for concrete instantiations. -/
def fsNotes : FS := fun p =>
  if p = "notes.txt" then .readable "ab\ncd" else .absent

/-- A file system holding an empty file and a newline-terminated file. -/
def fsSmall : FS := fun p =>
  if p = "empty.txt" then .readable ""
  else if p = "trail.txt" then .readable "a\n"
  else .absent

/-- A request naming a tool that no handler recognizes. -/
def reqUnknownTool : Request := { tool := some "frobnicate" }

/-- A request with no tool key at all. -/
def reqNoTool : Request := {}

/-- A file-analyzer request for the two-line file, analysis type omitted. -/
def reqNotes : Request :=
  { tool := some "file_analyzer", file_path := some "notes.txt" }

/-- A code-generator request whose specification matches both the web/api
and the data/analysis keyword groups. -/
def reqWebApi : Request :=
  { tool := some "code_generator",
    specification := some "Build a REST api for data analysis" }

/-- A file-analyzer request lacking the file_path key. -/
def reqNoPath : Request := { tool := some "file_analyzer" }

/-- A code-generator request with an empty specification. -/
def reqNoSpec : Request :=
  { tool := some "code_generator", specification := some "" }

/-- A file-analyzer request for a path that exists on no file system used
here. -/
def reqGhost : Request :=
  { tool := some "file_analyzer", file_path := some "ghost.txt" }

/-- A code-generator request for a non-Python language. -/
def reqJava : Request :=
  { tool := some "code_generator", specification := some "sort a list",
    language := some "java" }

/-- A file-analyzer request for the empty file. -/
def reqEmptyFile : Request :=
  { tool := some "file_analyzer", file_path := some "empty.txt" }

/-- A file-analyzer request for the newline-terminated file. -/
def reqTrail : Request :=
  { tool := some "file_analyzer", file_path := some "trail.txt" }

/-- Splitting never yields an empty list of fields. -/
theorem pySplit_ne_nil (sep : Char) (l : List Char) : pySplit sep l ≠ [] := by
  cases l with
  | nil => simp [pySplit]
  | cons c cs =>
    simp only [pySplit]
    split
    · simp
    · split <;> simp

/-- The number of fields produced by splitting is the number of separator
occurrences plus one. -/
theorem pySplit_length (sep : Char) (l : List Char) :
    (pySplit sep l).length = l.count sep + 1 := by
  induction l with
  | nil => rfl
  | cons c cs ih =>
    simp only [pySplit]
    by_cases h : c = sep
    · rw [if_pos (by simp [h])]
      simp [List.count_cons, h, ih]
    · rw [if_neg (by simp [h])]
      obtain ⟨g, gs, hgs⟩ := List.exists_cons_of_ne_nil (pySplit_ne_nil sep cs)
      rw [hgs] at ih ⊢
      simp only [List.length_cons] at ih ⊢
      simp [List.count_cons, h, ih]

/-- A list is always a prefix of itself extended on the right. -/
theorem charsStartWith_append (xs ys : List Char) :
    charsStartWith (xs ++ ys) xs = true := by
  induction xs with
  | nil => cases ys <;> rfl
  | cons c cs ih => simp [charsStartWith, ih]

/-- The empty needle occurs in every haystack. -/
theorem charsContain_nil (hay : List Char) : charsContain [] hay = true := by
  cases hay <;> simp [charsContain, charsStartWith]

/-- A needle occurs in any list that has it as a contiguous middle
segment. -/
theorem charsContain_middle (needle l r : List Char) :
    charsContain needle (l ++ (needle ++ r)) = true := by
  induction l with
  | nil =>
    cases needle with
    | nil => simpa using charsContain_nil r
    | cons n ns =>
      simp [charsContain, charsStartWith, charsStartWith_append]
  | cons c cs ih => simp [charsContain, ih]

/-- Characters of a concatenation are the concatenation of the
characters. -/
theorem str_toList_append (a b : String) :
    (a ++ b).toList = a.toList ++ b.toList := by
  cases a
  cases b
  rfl

/-- The placeholder code always contains the capitalized language name. -/
theorem pyIn_placeholder_language (L S : String) :
    pyIn (pyCapitalize L) (placeholderCode L S) = true := by
  unfold pyIn placeholderCode
  rw [str_toList_append, str_toList_append, str_toList_append]
  have h := charsContain_middle (pyCapitalize L).toList "# ".toList
    (" code placeholder\\n# Specification: ".toList ++ S.toList)
  simpa [List.append_assoc] using h

/-- The placeholder code always contains the specification text. -/
theorem pyIn_placeholder_specification (L S : String) :
    pyIn S (placeholderCode L S) = true := by
  unfold pyIn placeholderCode
  rw [str_toList_append, str_toList_append, str_toList_append]
  have h := charsContain_middle S.toList
    ("# ".toList ++ (pyCapitalize L).toList ++
      " code placeholder\\n# Specification: ".toList) []
  simpa [List.append_assoc] using h

/-- C1: every invocation emits exactly one JSON value to standard output,
and it has one of the three shapes `result`, `code`/`explanation`, or
`error`; no other shape is produced. -/
theorem claim_C1 (fs : FS) (input : Stdin) :
    ∃ r : Response, (mainRun fs input).1 = [r] ∧
      ((∃ s, r = Response.result s) ∨ (∃ c e, r = Response.code c e) ∨
        (∃ m, r = Response.error m)) := by
  cases input with
  | invalid msg => exact ⟨Response.error msg, rfl, Or.inr (Or.inr ⟨msg, rfl⟩)⟩
  | valid data =>
    refine ⟨process_input fs data, rfl, ?_⟩
    cases process_input fs data with
    | result s => exact Or.inl ⟨s, rfl⟩
    | code c e => exact Or.inr (Or.inl ⟨c, e, rfl⟩)
    | error m => exact Or.inr (Or.inr ⟨m, rfl⟩)

/-- C2: whenever reading standard input fails (the content is not valid
JSON), the program emits the single JSON object `{"error": msg}` and
exits with code 0, never signaling the failure through the exit status. -/
theorem claim_C2 (fs : FS) (input : Stdin) (msg : String)
    (h : readStdin input = Except.error msg) :
    mainRun fs input = ([Response.error msg], 0) := by
  unfold mainRun
  rw [h]

/-- Witness for C2: a typical json.load failure message is echoed back in
the error object, with exit code 0. -/
theorem claim_C2_witness :
    mainRun emptyFS (Stdin.invalid "Expecting value: line 1 column 1 (char 0)") =
      ([Response.error "Expecting value: line 1 column 1 (char 0)"], 0) :=
  claim_C2 emptyFS (Stdin.invalid "Expecting value: line 1 column 1 (char 0)")
    "Expecting value: line 1 column 1 (char 0)" rfl

/-- C3: when the tool field (defaulting to the empty string when absent)
is neither file_analyzer nor code_generator, the dispatcher returns the
unknown-tool error naming that value. -/
theorem claim_C3 (fs : FS) (data : Request)
    (h1 : data.tool.getD "" ≠ "file_analyzer")
    (h2 : data.tool.getD "" ≠ "code_generator") :
    process_input fs data =
      Response.error ("Unknown tool: " ++ data.tool.getD "") := by
  simp [process_input, h1, h2]

/-- Witness for C3: an unrecognized tool name, and an absent tool field,
both produce the unknown-tool error. -/
theorem claim_C3_witness :
    process_input emptyFS reqUnknownTool =
      Response.error "Unknown tool: frobnicate" ∧
    process_input emptyFS reqNoTool = Response.error "Unknown tool: " :=
  ⟨(claim_C3 emptyFS reqUnknownTool (by decide) (by decide)).trans (by decide),
   (claim_C3 emptyFS reqNoTool (by decide) (by decide)).trans (by decide)⟩

/-- C4: for tool file_analyzer with an analysis type that is neither
security nor performance (in particular summary or omitted), an existing
readable file is reported with exactly its newline-separated line count
and its character count. -/
theorem claim_C4 (fs : FS) (data : Request) (content : String)
    (htool : data.tool.getD "" = "file_analyzer")
    (hpath : data.file_path.getD "" ≠ "")
    (hfs : fs (data.file_path.getD "") = FileEntry.readable content)
    (hsec : data.analysis_type.getD "summary" ≠ "security")
    (hperf : data.analysis_type.getD "summary" ≠ "performance") :
    process_input fs data =
      Response.result (summaryMessage (data.file_path.getD "") content) := by
  simp [process_input, htool, process_file_analyzer, hpath, hfs, hsec, hperf]

/-- Witness for C4: a file with content of 2 newline-separated lines and
5 characters is reported as exactly that. -/
theorem claim_C4_witness :
    process_input fsNotes reqNotes =
      Response.result "Summary of notes.txt: File contains 2 lines and 5 characters." :=
  (claim_C4 fsNotes reqNotes "ab\ncd" (by decide) (by decide) (by decide)
    (by decide) (by decide)).trans (by decide)

/-- C5: for Python (case-insensitively) with a specification containing
web or api (case-insensitively), the generator returns the fixed web-API
template and explanation — first-match-wins, so this holds even when the
specification also contains data or analysis. -/
theorem claim_C5 (data : Request)
    (hlang : pyLower (data.language.getD "python") = "python")
    (hkw : pyIn "web" (pyLower (data.specification.getD "")) = true ∨
           pyIn "api" (pyLower (data.specification.getD "")) = true) :
    process_code_generator data =
      Response.code webApiTemplate webApiExplanation := by
  have hspec : data.specification.getD "" ≠ "" := by
    intro h
    rw [h] at hkw
    rcases hkw with h1 | h1
    · exact absurd h1 (by decide)
    · exact absurd h1 (by decide)
  rcases hkw with h1 | h1 <;>
    simp [process_code_generator, hspec, hlang, h1]

/-- Witness for C5: "Build a REST api for data analysis" contains api (and
also data and analysis), yet the web-API template is selected. -/
theorem claim_C5_witness :
    process_code_generator reqWebApi =
      Response.code webApiTemplate webApiExplanation :=
  claim_C5 reqWebApi (by decide) (Or.inr (by decide))

/-- C6: an empty or absent file_path makes the file analyzer return the
file-path-required error, and an empty or absent specification makes the
code generator return the specification-required error; in both cases the
handler result is exactly that error. -/
theorem claim_C6 (fs : FS) (d1 d2 : Request) :
    (d1.file_path.getD "" = "" →
      process_file_analyzer fs d1 = Response.error "File path is required") ∧
    (d2.specification.getD "" = "" →
      process_code_generator d2 = Response.error "Specification is required") := by
  constructor
  · intro h
    simp [process_file_analyzer, h]
  · intro h
    simp [process_code_generator, h]

/-- Witness for C6: an absent file_path and an empty specification each
produce the corresponding required-field error. -/
theorem claim_C6_witness :
    process_file_analyzer emptyFS reqNoPath =
      Response.error "File path is required" ∧
    process_code_generator reqNoSpec =
      Response.error "Specification is required" :=
  ⟨(claim_C6 emptyFS reqNoPath reqNoSpec).1 (by decide),
   (claim_C6 emptyFS reqNoPath reqNoSpec).2 (by decide)⟩

/-- C7: a non-empty file_path that is absent from the file system makes
the file analyzer return the file-not-found error naming the path, and no
file content is consulted. -/
theorem claim_C7 (fs : FS) (data : Request)
    (hpath : data.file_path.getD "" ≠ "")
    (habs : fs (data.file_path.getD "") = FileEntry.absent) :
    process_file_analyzer fs data =
      Response.error ("File not found: " ++ data.file_path.getD "") := by
  simp [process_file_analyzer, hpath, habs]

/-- Witness for C7: a request for ghost.txt on the empty file system. -/
theorem claim_C7_witness :
    process_file_analyzer emptyFS reqGhost =
      Response.error "File not found: ghost.txt" :=
  (claim_C7 emptyFS reqGhost (by decide) (by decide)).trans (by decide)

/-- C8: for a non-Python language and a non-empty specification, the
generator returns the placeholder code and generic placeholder
explanation, and that code contains both the capitalized language name
and the literal specification text. -/
theorem claim_C8 (data : Request)
    (hspec : data.specification.getD "" ≠ "")
    (hlang : pyLower (data.language.getD "python") ≠ "python") :
    process_code_generator data =
      Response.code
        (placeholderCode (data.language.getD "python") (data.specification.getD ""))
        (placeholderExplanation (data.language.getD "python")) ∧
    pyIn (pyCapitalize (data.language.getD "python"))
      (placeholderCode (data.language.getD "python") (data.specification.getD "")) = true ∧
    pyIn (data.specification.getD "")
      (placeholderCode (data.language.getD "python") (data.specification.getD "")) = true := by
  refine ⟨?_, pyIn_placeholder_language _ _, pyIn_placeholder_specification _ _⟩
  simp [process_code_generator, hspec, hlang]

/-- Witness for C8: language java yields placeholder code containing
"Java" and the specification text. -/
theorem claim_C8_witness :
    process_code_generator reqJava =
      Response.code "# Java code placeholder\\n# Specification: sort a list"
        "Generated placeholder code for java" ∧
    pyIn "Java" "# Java code placeholder\\n# Specification: sort a list" = true ∧
    pyIn "sort a list" "# Java code placeholder\\n# Specification: sort a list" = true :=
  ⟨((claim_C8 reqJava (by decide) (by decide)).1).trans (by decide),
   by decide, by decide⟩

/-- C9: the framework field never influences the code generator: two
requests identical except for the framework value (including its absence)
yield the same response. -/
theorem claim_C9 (data : Request) (f1 f2 : Option String) :
    process_code_generator { data with framework := f1 } =
    process_code_generator { data with framework := f2 } := by
  cases data
  rfl

/-- C10: in the summary branch, the reported line count is the number of
newline characters in the content plus one (so an empty file reports
1 lines and 0 characters, and a trailing newline adds a final empty
line). -/
theorem claim_C10 (fs : FS) (data : Request) (content : String)
    (hpath : data.file_path.getD "" ≠ "")
    (hfs : fs (data.file_path.getD "") = FileEntry.readable content)
    (hsec : data.analysis_type.getD "summary" ≠ "security")
    (hperf : data.analysis_type.getD "summary" ≠ "performance") :
    process_file_analyzer fs data =
      Response.result ("Summary of " ++ data.file_path.getD "" ++
        ": File contains " ++ toString (content.toList.count NL + 1) ++
        " lines and " ++ toString content.length ++ " characters.") := by
  have h : process_file_analyzer fs data =
      Response.result (summaryMessage (data.file_path.getD "") content) := by
    simp [process_file_analyzer, hpath, hfs, hsec, hperf]
  rw [h]
  unfold summaryMessage
  rw [pySplit_length]

/-- Witness for C10: the empty file reports 1 lines and 0 characters, and
a file whose content is one line followed by a newline reports 2 lines. -/
theorem claim_C10_witness :
    process_file_analyzer fsSmall reqEmptyFile =
      Response.result "Summary of empty.txt: File contains 1 lines and 0 characters." ∧
    process_file_analyzer fsSmall reqTrail =
      Response.result "Summary of trail.txt: File contains 2 lines and 2 characters." :=
  ⟨(claim_C10 fsSmall reqEmptyFile "" (by decide) (by decide) (by decide)
      (by decide)).trans (by decide),
   (claim_C10 fsSmall reqTrail "a\n" (by decide) (by decide) (by decide)
      (by decide)).trans (by decide)⟩

end Neonmachines
